import Mathlib

/-!
Shallow embedding of the RAG test-artifact pipeline
(`backend/utils/chunking.py`, `backend/services/vector_store.py`,
`backend/services/test_case_generator.py`,
`backend/services/script_generator.py`) together with proofs checking the
specification's claims against it.

Python strings are modelled as Lean `String` / `List Char`; Python `dict`s
as insertion-ordered association lists; fallible external calls (the LLM
completion, JSON parsing) as explicit outcome values.
-/

namespace QAAgent

/-! ## Python string primitives -/

/-- Whether the needle occurs at the start of the haystack
(list-of-characters view). -/
def isPre : List Char → List Char → Bool
  | [], _ => true
  | _ :: _, [] => false
  | a :: as, b :: bs => a == b && isPre as bs

/-- Python `needle in hay` for strings: `needle` occurs contiguously
somewhere in `hay`. -/
def containsSub (hay needle : List Char) : Bool :=
  (List.range (hay.length + 1)).any fun i => isPre needle (hay.drop i)

/-- Python `sub in s` on `String`s. -/
def pyIn (sub s : String) : Bool := containsSub s.toList sub.toList

/-- Python `str.lower()` (ASCII view, which is all the source uses). -/
def pyLower (s : String) : String := (s.toList.map Char.toLower).asString

/-- Python `str.capitalize()`: first character upper-cased, rest lower-cased. -/
def pyCapitalize (s : String) : String :=
  match s.toList with
  | [] => ""
  | c :: cs => (c.toUpper :: cs.map Char.toLower).asString

/-- Python `str.strip()`: remove whitespace from both ends. -/
def pyStrip (s : String) : String :=
  (((s.toList.dropWhile Char.isWhitespace).reverse.dropWhile
      Char.isWhitespace).reverse).asString

/-- Effective index of a Python slice bound `i` for a string of length `n`:
negative indices count from the end, then both ends are clamped to `[0, n]`. -/
def pyBound (n : Nat) (i : Int) : Nat :=
  if i < 0 then ((n : Int) + i).toNat else min i.toNat n

/-- Python slice `s[a:b]` with full negative-index and clamping semantics. -/
def pySlice (s : String) (a b : Int) : String :=
  let n := s.length
  let a' := pyBound n a
  let b' := pyBound n b
  ((s.toList.drop a').take (b' - a')).asString

/-- Python `s.rfind(sub)`: index of the last occurrence of `sub` in `s`,
`none` standing for Python's `-1`. -/
def pyRfind (s sub : String) : Option Nat :=
  ((List.range (s.toList.length + 1)).filter
      (fun i => isPre sub.toList (s.toList.drop i))).getLast?

/-- Decimal digits of `n`, most significant first, with structural fuel
(`n + 1` is always enough since `n / 10` strictly decreases). Models
Python `str(i)` for non-negative `i`. -/
def natStrGo : Nat → Nat → List Char
  | 0, _ => []
  | fuel + 1, n =>
    if n < 10 then [Char.ofNat (48 + n)]
    else natStrGo fuel (n / 10) ++ [Char.ofNat (48 + n % 10)]

/-- Python `str(n)` for a natural number. -/
def natStr (n : Nat) : String := (natStrGo (n + 1) n).asString

/-- Python `f"{n:03d}"` for a natural number: decimal, zero-padded to
width 3. -/
def padNat3 (n : Nat) : String :=
  let ds := natStrGo (n + 1) n
  (List.replicate (3 - ds.length) '0' ++ ds).asString

/-- Reads the decimal digits back into a number; used to prove `natStr`
injective. -/
def parseNat (cs : List Char) : Nat :=
  cs.foldl (fun a c => a * 10 + (c.toNat - 48)) 0

/-! ## Chunker (`backend/utils/chunking.py`, `chunk_text`) -/

/-- The sentence-terminator delimiters tried in priority order. -/
def delims : List String := [". ", ".\n", "!\n", "?\n"]

/-- The `for delimiter in [...]` loop with `break`: the first delimiter (in
priority order) that occurs in `window`, together with the index of its
last occurrence. -/
def findDelim (window : String) : Option (Nat × String) :=
  delims.findSome? fun d => (pyRfind window d).map fun i => (i, d)

/-- One iteration of the `while start < len(text)` loop body: returns the
chunk appended this round (if its stripped text is non-empty) and the next
value of `start` (`end - overlap`, which may go negative). -/
def chunkStep (text : String) (chunkSize overlap : Nat) (start : Int) :
    Option String × Int :=
  let e0 : Int := start + (chunkSize : Int)
  let e : Int :=
    if e0 < (text.length : Int) then
      match findDelim (pySlice text start e0) with
      | some (i, d) => start + (i : Int) + (d.length : Int)
      | none => e0
    else e0
  let c := pyStrip (pySlice text start e)
  (if c = "" then none else some c, e - (overlap : Int))

/-- The `while` loop of `chunk_text`, made total with explicit fuel:
`none` means the fuel ran out, i.e. the Python loop has not terminated
within `fuel` iterations. -/
def chunkLoop (text : String) (chunkSize overlap : Nat) :
    Nat → Int → List String → Option (List String)
  | 0, _, _ => none
  | fuel + 1, start, chunks =>
    if start < (text.length : Int) then
      let (c, start') := chunkStep text chunkSize overlap start
      chunkLoop text chunkSize overlap fuel start'
        (chunks ++ c.toList)
    else
      some chunks

/-- Models `chunk_text(text, chunk_size, overlap)`; `fuel` bounds the number of
loop iterations we are willing to run (the Python code has no such bound). -/
def chunk_text (fuel : Nat) (text : String) (chunkSize overlap : Nat) :
    Option (List String) :=
  if text.length ≤ chunkSize then some [text]
  else chunkLoop text chunkSize overlap fuel 0 []

/-! ## VectorStore id assignment (`backend/services/vector_store.py`,
`build_from_documents`) -/

/-- Models `ids = [f"doc_{i}" for i in range(len(all_chunks))]`: the ids one
`build_from_documents` call assigns when it has `n` chunks to store. -/
def assignedIds (n : Nat) : List String :=
  (List.range n).map fun i => "doc_" ++ natStr i

/-- The backing collection modelled as the list of ids it holds (only ids
matter to the uniqueness claims). `collection.add` appends; a call with
`n` chunks always uses `assignedIds n`, restarting from `doc_0`. Returns
the new collection state together with the ids this call assigned. -/
def addBatch (collection : List String) (n : Nat) :
    List String × List String :=
  (collection ++ assignedIds n, assignedIds n)

/-! ## Test-case generator (`backend/services/test_case_generator.py`) -/

/-- A parsed JSON value, as returned by `json.loads`. -/
inductive JValue where
  | str (s : String)
  | num (n : Int)
  | bool (b : Bool)
  | null
  | arr (xs : List JValue)
  | obj (fields : List (String × JValue))

/-- A Python `dict` with string keys: an insertion-ordered association
list with (as `json.loads` guarantees) at most one entry per key. -/
abbrev PyDict := List (String × JValue)

/-- Python `d.get(k)`: `some v` when the key is present, `none` otherwise. -/
def pyGet (d : PyDict) (k : String) : Option JValue :=
  (d.find? fun p => p.1 == k).map fun p => p.2

/-- Models `tc.get(k, default) if isinstance(tc.get(k), list) else default`:
keep the stored value only when it is present *and* a JSON list, else use
the default list. -/
def normList (o : Option JValue) (dflt : List JValue) : JValue :=
  match o with
  | some (.arr xs) => .arr xs
  | _ => .arr dflt

/-- Models `_validate_test_case(tc, index)`: builds the normalized nine-field
record. `dict.get` with a default only fills in *missing* keys; only
`test_steps` and `grounded_in` additionally go through an
`isinstance(..., list)` check. -/
def validate_test_case (tc : PyDict) (index : Nat) : PyDict :=
  [("test_id", (pyGet tc "test_id").getD (.str ("TC-" ++ padNat3 index))),
   ("feature", (pyGet tc "feature").getD (.str "Unknown Feature")),
   ("test_scenario", (pyGet tc "test_scenario").getD (.str "Test scenario")),
   ("test_type", (pyGet tc "test_type").getD (.str "positive")),
   ("preconditions", (pyGet tc "preconditions").getD (.str "None")),
   ("test_steps", normList (pyGet tc "test_steps") [.str "Execute test"]),
   ("expected_result", (pyGet tc "expected_result").getD (.str "Test passes")),
   ("grounded_in", normList (pyGet tc "grounded_in") [.str "documentation"]),
   ("priority", (pyGet tc "priority").getD (.str "medium"))]

/-- The fixed keyword vocabulary of `_extract_features_from_context`. -/
def keywords : List String :=
  ["button", "form", "input", "field", "cart", "checkout", "payment",
   "discount", "shipping"]

/-- Models `_extract_features_from_context(context)`. The matched keywords are
pairwise distinct, so Python's `list(set(features))` keeps exactly these
elements but iterates them in a hash-seed-dependent order; that order is
modelled by the explicit parameter `setOrder` (one fixed such function per
interpreter process). The trailing `[:10]` is `take 10`. -/
def extract_features_from_context (setOrder : List String → List String)
    (context : String) : List String :=
  let features := keywords.filterMap fun kw =>
    if pyIn (pyLower kw) (pyLower context) then some (pyCapitalize kw)
    else none
  (setOrder features).take 10

/-- Models `_create_fallback_test_cases(query, context, num_cases)`. Note
`len(features) or 3` is `3` only when no feature matched, and `query` is
never used by the body. -/
def create_fallback_test_cases (setOrder : List String → List String)
    (query context : String) (numCases : Nat) : List PyDict :=
  let features := extract_features_from_context setOrder context
  let bound := min numCases (if features.length = 0 then 3 else features.length)
  (List.range bound).map fun i =>
    let feature := features.getD i "General Functionality"
    [("test_id", .str ("TC-" ++ padNat3 (i + 1))),
     ("feature", .str feature),
     ("test_scenario", .str ("Test " ++ feature ++ " functionality")),
     ("test_type", .str (if i % 3 ≠ 1 then "positive" else "negative")),
     ("preconditions", .str "Application is loaded"),
     ("test_steps", .arr [.str "Navigate to the feature",
                          .str "Perform action", .str "Verify result"]),
     ("expected_result", .str "Feature works as expected"),
     ("grounded_in", .arr [.str "documentation"]),
     ("priority", .str "medium")]

/-- Models `for i, tc in enumerate(test_cases[:num_cases], 1): validate(tc, i)`,
with the running index made explicit. -/
def validateAll : List PyDict → Nat → List PyDict
  | [], _ => []
  | tc :: rest, i => validate_test_case tc i :: validateAll rest (i + 1)

/-- Outcome of the external completion call followed by `json.loads` on
the fence-stripped response text: the call itself may raise
(`transportError`, caught by the outer `except Exception`), or the
stripped text may fail to parse (`output none`, the `JSONDecodeError`
branch), or parse to a JSON value (`output (some v)`). -/
inductive GenOutcome where
  | transportError
  | output (parsed : Option JValue)

/-- The `JValue.obj` fields when the value is a dict. A non-dict entry makes
Python's `tc.get` raise `AttributeError`. -/
def asObj : JValue → Option PyDict
  | .obj fields => some fields
  | _ => none

/-- All entries as dicts, or `none` as soon as one entry is not a dict
(the `AttributeError` the validation loop raises on it). -/
def allObjs : List JValue → Option (List PyDict)
  | [] => some []
  | v :: rest =>
    match asObj v with
    | some fields => (allObjs rest).map fun tail => fields :: tail
    | none => none

/-- Models `_generate_with_llm(query, context, num_cases)` as a function of the
completion/parse outcome. A bare JSON object is wrapped in a one-element
list; the first `num_cases` entries are validated with 1-based indices;
a non-dict entry raises `AttributeError`, which the outer
`except Exception` turns into the fallback, as do the transport and parse
failures. -/
def generate_with_llm (outcome : GenOutcome)
    (setOrder : List String → List String) (query context : String)
    (numCases : Nat) : List PyDict :=
  match outcome with
  | .transportError => create_fallback_test_cases setOrder query context numCases
  | .output none => create_fallback_test_cases setOrder query context numCases
  | .output (some v) =>
    let testCases := match v with | .arr xs => xs | other => [other]
    let taken := testCases.take numCases
    match allObjs taken with
    | some recs => validateAll recs 1
    | none => create_fallback_test_cases setOrder query context numCases

/-- A document returned by `rag_service.retrieve_context`: only the
`metadata.source` and `content` entries are read (each with a `.get`
default). -/
structure CtxDoc where
  metaSource : Option String
  content : Option String
deriving Repr

/-- The `for i, doc in enumerate(context_docs, 1)` loop of
`_build_context_string`, accumulating one part per document. -/
def contextParts : List CtxDoc → Nat → List String
  | [], _ => []
  | doc :: rest, i =>
    ("[Document " ++ natStr i ++ " - " ++ doc.metaSource.getD "unknown" ++
      "]\n" ++ doc.content.getD "" ++ "\n") :: contextParts rest (i + 1)

/-- Models `_build_context_string(context_docs)`. -/
def build_context_string (docs : List CtxDoc) : String :=
  String.intercalate "\n" (contextParts docs 1)

/-- Models `generate_test_cases(query, num_cases)`, with the externally retrieved
documents and the completion/parse outcome as parameters. -/
def generate_test_cases (outcome : GenOutcome)
    (setOrder : List String → List String) (docs : List CtxDoc)
    (query : String) (numCases : Nat) : List PyDict :=
  let context := build_context_string docs
  generate_with_llm outcome setOrder query context numCases

/-! ## Selector table extraction (`backend/services/script_generator.py`,
`_extract_selectors`) -/

/-- Generic Python `dict` lookup on an association list. -/
def alistGet {α : Type} (d : List (String × α)) (k : String) : Option α :=
  (d.find? fun p => p.1 == k).map fun p => p.2

/-- Python dict assignment `d[k] = v`: overwrite in place when the key
exists (keeping its insertion position), append otherwise. -/
def dictSet {α : Type} (d : List (String × α)) (k : String) (v : α) :
    List (String × α) :=
  if d.any fun p => p.1 == k then
    d.map fun p => if p.1 == k then (k, v) else p
  else d ++ [(k, v)]

/-- An element as delivered by the (external) HTML parser: its tag name,
its attributes, and the result of `get_text(strip=True)`. -/
structure HElem where
  tag : String
  idAttr : Option String
  nameAttr : Option String
  classAttr : List String
  typeAttr : Option String
  textContent : String
  placeholder : Option String
  value : Option String
deriving DecidableEq, Repr

/-- The `element_info` dict built for each element (`text` is `None` for
`input` elements). -/
structure ElemInfo where
  tag : String
  idAttr : Option String
  nameAttr : Option String
  classAttr : List String
  typeAttr : Option String
  text : Option String
  placeholder : Option String
  value : Option String
deriving DecidableEq, Repr

/-- Builds `element_info` from a parsed element. -/
def infoOf (e : HElem) : ElemInfo :=
  { tag := e.tag, idAttr := e.idAttr, nameAttr := e.nameAttr,
    classAttr := e.classAttr, typeAttr := e.typeAttr,
    text := if e.tag == "input" then none else some e.textContent,
    placeholder := e.placeholder, value := e.value }

/-- Python truthiness of an optional string attribute: present and
non-empty. -/
def truthyOpt : Option String → Bool
  | some s => s ≠ ""
  | none => false

/-- A single-quote character as a string (ASCII 39). -/
def sq : String := "\x27"

/-- The tags `find_all` is asked for. -/
def interactiveTags : List String := ["input", "button", "select", "textarea", "a"]

/-- The selector key for one element, by priority: truthy `id` attribute,
then truthy `name` attribute, then truthy visible text (first 30
characters, scoped to the tag name); no key otherwise. -/
def keyOf (info : ElemInfo) : Option String :=
  if truthyOpt info.idAttr then some ("#" ++ info.idAttr.getD "")
  else if truthyOpt info.nameAttr then
    some ("[name=" ++ sq ++ info.nameAttr.getD "" ++ sq ++ "]")
  else if truthyOpt info.text then
    some (info.tag ++ ":contains(" ++ sq ++
      ((info.text.getD "").toList.take 30).asString ++ sq ++ ")")
  else none

/-- Models `_extract_selectors(html_content)` as a function of the parsed element
list (HTML parsing itself is an external collaborator): iterate the
interactive elements in document order, keying each into the selector
dict (assignment overwrites on collision). -/
def extract_selectors (elements : List HElem) : List (String × ElemInfo) :=
  (elements.filter fun e => interactiveTags.contains e.tag).foldl
    (fun sels e =>
      let info := infoOf e
      match keyOf info with
      | some k => dictSet sels k info
      | none => sels)
    []

/-- The parsed element for `<input id="email">` in the claim's markup. -/
def inputEmail : HElem :=
  ⟨"input", some "email", none, [], none, "", none, none⟩

/-- The parsed element for `<button>Submit</button>` in the claim's markup. -/
def buttonSubmit : HElem :=
  ⟨"button", none, none, [], none, "Submit", none, none⟩

/-- An id-less, name-less button whose visible text shares its first 30
characters with `btnDupB` but differs afterwards. -/
def btnDupA : HElem :=
  ⟨"button", none, none, [], none, String.mk (List.replicate 30 'x') ++ "A",
   none, none⟩

/-- The later colliding element: same tag and same first-30-character
text as `btnDupA`, different full text. -/
def btnDupB : HElem :=
  ⟨"button", none, none, [], none, String.mk (List.replicate 30 'x') ++ "B",
   none, none⟩

/-! # Theorems -/

/-! ## Chunker claims -/

/-- C3 (counterexample): on the input `" a "` (which fits in one chunk) the
code returns the input verbatim, which differs from the whitespace-stripped
input the claim demands. -/
theorem chunk_text_small_untrimmed_cex :
    chunk_text 1 " a " 10 2 = some [" a "] ∧ pyStrip " a " ≠ " a " := by
  constructor
  · rfl
  · decide

/-- C3 (amended): for every text with `len(text) ≤ max_size`, `chunk_text`
returns exactly one chunk, and that chunk is the input itself, untrimmed. -/
theorem chunk_text_small_returns_input (fuel : Nat) (text : String)
    (chunkSize overlap : Nat) (h : text.length ≤ chunkSize) :
    chunk_text fuel text chunkSize overlap = some [text] := by
  unfold chunk_text
  rw [if_pos h]

/-- Witness for C3's amended theorem at the concrete input `"ab"`. -/
theorem chunk_text_small_returns_input_witness :
    chunk_text 0 "ab" 5 1 = some ["ab"] :=
  chunk_text_small_returns_input 0 "ab" 5 1 (by decide)

/-- On the C2 failing input, one loop iteration starting at `start = 0`
emits the chunk `"abc."` and computes the next start as
`(0 + 3 + 2) - 5 = 0` again. -/
theorem chunkStep_fixpoint : chunkStep "abc. bbbbbzzzz" 10 5 0 = (some "abc.", 0) := by
  decide

/-- The `while` loop of `chunk_text` never leaves `start = 0` on the C2
failing input, whatever fuel and accumulator it is given. -/
theorem chunkLoop_stuck (fuel : Nat) :
    ∀ chunks, chunkLoop "abc. bbbbbzzzz" 10 5 fuel 0 chunks = none := by
  induction fuel with
  | zero => intro chunks; rfl
  | succ n ih =>
    intro chunks
    rw [chunkLoop, if_pos (by decide), chunkStep_fixpoint]
    exact ih _

/-- C2: `chunk_text` does not terminate on
`chunk_text("abc. bbbbbzzzz", 10, 5)` even though `len(text) > max_size`
and `overlap < max_size`: no amount of loop fuel produces a result, because
the sentence-boundary shrink drives `end` to `5` and
`start = end - overlap` back to `0` on every iteration. -/
theorem chunk_text_nonterminating (fuel : Nat) :
    chunk_text fuel "abc. bbbbbzzzz" 10 5 = none := by
  unfold chunk_text
  rw [if_neg (by decide)]
  exact chunkLoop_stuck fuel []

/-! ## VectorStore id claims -/

theorem parseNat_append_digit (cs : List Char) (c : Char) :
    parseNat (cs ++ [c]) = parseNat cs * 10 + (c.toNat - 48) := by
  simp [parseNat]

theorem digit_roundtrip (d : Nat) (h : d < 10) :
    (Char.ofNat (48 + d)).toNat - 48 = d := by
  interval_cases d <;> rfl

theorem parseNat_natStrGo (fuel : Nat) :
    ∀ n, n < fuel → parseNat (natStrGo fuel n) = n := by
  induction fuel with
  | zero => omega
  | succ m ih =>
    intro n h
    rw [natStrGo]
    by_cases hn : n < 10
    · rw [if_pos hn]
      have h1 : parseNat [Char.ofNat (48 + n)] = (Char.ofNat (48 + n)).toNat - 48 := by
        simp [parseNat]
      rw [h1, digit_roundtrip n hn]
    · rw [if_neg hn, parseNat_append_digit, ih (n / 10) (by omega),
        digit_roundtrip (n % 10) (by omega)]
      omega

theorem string_toList_inj (a b : String) (h : a.toList = b.toList) : a = b := by
  cases a
  cases b
  exact congrArg String.mk h

theorem natStr_inj : Function.Injective natStr := by
  intro m n h
  have h' : natStrGo (m + 1) m = natStrGo (n + 1) n := by
    have h2 := congrArg String.toList h
    simpa [natStr, List.toList_asString] using h2
  have h3 := congrArg parseNat h'
  rwa [parseNat_natStrGo (m + 1) m (by omega),
    parseNat_natStrGo (n + 1) n (by omega)] at h3

theorem docId_inj : Function.Injective (fun i => "doc_" ++ natStr i) := by
  intro a b h
  apply natStr_inj
  apply string_toList_inj
  have h2 := congrArg String.toList h
  have h3 : "doc_".toList ++ (natStr a).toList = "doc_".toList ++ (natStr b).toList := h2
  exact List.append_cancel_left h3

theorem mem_assignedIds_zero (n : Nat) (h : 1 ≤ n) : "doc_0" ∈ assignedIds n := by
  have h0 : "doc_0" = "doc_" ++ natStr 0 := rfl
  rw [h0, assignedIds]
  exact List.mem_map_of_mem _ (List.mem_range.mpr h)

/-- C4 (counterexample): a second `build_from_documents` call with no
intervening reset re-assigns `doc_0`, an id the first call already
assigned, while the collection is still populated. -/
theorem addBatch_id_reuse_cex :
    "doc_0" ∈ (addBatch [] 1).2 ∧
    "doc_0" ∈ (addBatch (addBatch [] 1).1 1).2 ∧
    (addBatch [] 1).1 ≠ [] := by
  decide

/-- C4 (amended): within one `add_batch` call the assigned ids are pairwise
distinct and the `i`-th id is `doc_<i>` (so the numeric suffixes increase
monotonically), but the counter restarts at `doc_0` on every call: two
calls with no intervening reset, each adding at least one chunk, share an
assigned id while the collection is still populated. -/
theorem addBatch_ids (collection : List String) (n₁ n₂ : Nat)
    (h₁ : 1 ≤ n₁) (h₂ : 1 ≤ n₂) :
    (addBatch collection n₁).2.Nodup ∧
    (∀ i, i < n₁ → (addBatch collection n₁).2[i]? = some ("doc_" ++ natStr i)) ∧
    ∃ id, id ∈ (addBatch collection n₁).2 ∧
      id ∈ (addBatch (addBatch collection n₁).1 n₂).2 ∧
      (addBatch collection n₁).1 ≠ [] := by
  refine ⟨?_, ?_, "doc_0", mem_assignedIds_zero n₁ h₁, mem_assignedIds_zero n₂ h₂, ?_⟩
  · exact (List.nodup_range n₁).map docId_inj
  · intro i hi
    simp [addBatch, assignedIds, List.getElem?_range, hi]
  · show collection ++ assignedIds n₁ ≠ []
    have : (collection ++ assignedIds n₁).length ≠ 0 := by
      simp [assignedIds]
      omega
    intro hcon
    exact this (by rw [hcon]; rfl)

/-- Witness for C4's amended theorem: two one-chunk calls on an initially
empty collection. -/
theorem addBatch_ids_witness :
    (addBatch [] 1).2.Nodup ∧
    (∃ id, id ∈ (addBatch [] 1).2 ∧ id ∈ (addBatch (addBatch [] 1).1 1).2 ∧
      (addBatch [] 1).1 ≠ []) :=
  ⟨(addBatch_ids [] 1 1 (by decide) (by decide)).1,
   (addBatch_ids [] 1 1 (by decide) (by decide)).2.2⟩

/-! ## Test-case validation claims -/

theorem pyGet_validate_test_id (tc : PyDict) (i : Nat) :
    pyGet (validate_test_case tc i) "test_id"
      = some ((pyGet tc "test_id").getD (.str ("TC-" ++ padNat3 i))) := rfl

theorem pyGet_validate_feature (tc : PyDict) (i : Nat) :
    pyGet (validate_test_case tc i) "feature"
      = some ((pyGet tc "feature").getD (.str "Unknown Feature")) := rfl

theorem pyGet_validate_test_scenario (tc : PyDict) (i : Nat) :
    pyGet (validate_test_case tc i) "test_scenario"
      = some ((pyGet tc "test_scenario").getD (.str "Test scenario")) := rfl

theorem pyGet_validate_test_type (tc : PyDict) (i : Nat) :
    pyGet (validate_test_case tc i) "test_type"
      = some ((pyGet tc "test_type").getD (.str "positive")) := rfl

theorem pyGet_validate_preconditions (tc : PyDict) (i : Nat) :
    pyGet (validate_test_case tc i) "preconditions"
      = some ((pyGet tc "preconditions").getD (.str "None")) := rfl

theorem pyGet_validate_test_steps (tc : PyDict) (i : Nat) :
    pyGet (validate_test_case tc i) "test_steps"
      = some (normList (pyGet tc "test_steps") [.str "Execute test"]) := rfl

theorem pyGet_validate_expected_result (tc : PyDict) (i : Nat) :
    pyGet (validate_test_case tc i) "expected_result"
      = some ((pyGet tc "expected_result").getD (.str "Test passes")) := rfl

theorem pyGet_validate_grounded_in (tc : PyDict) (i : Nat) :
    pyGet (validate_test_case tc i) "grounded_in"
      = some (normList (pyGet tc "grounded_in") [.str "documentation"]) := rfl

theorem pyGet_validate_priority (tc : PyDict) (i : Nat) :
    pyGet (validate_test_case tc i) "priority"
      = some ((pyGet tc "priority").getD (.str "medium")) := rfl

theorem normList_idem (o : Option JValue) (dflt : List JValue) :
    normList (some (normList o dflt)) dflt = normList o dflt := by
  rcases o with _ | v
  · rfl
  · cases v <;> rfl

/-- C8: validation is idempotent; re-validating an already-normalized
record (with the same index) yields the identical record. -/
theorem validate_test_case_idem (tc : PyDict) (i : Nat) :
    validate_test_case (validate_test_case tc i) i = validate_test_case tc i := by
  conv_lhs => rw [validate_test_case]
  rw [pyGet_validate_test_id, pyGet_validate_feature, pyGet_validate_test_scenario,
    pyGet_validate_test_type, pyGet_validate_preconditions, pyGet_validate_test_steps,
    pyGet_validate_expected_result, pyGet_validate_grounded_in, pyGet_validate_priority]
  conv_rhs => rw [validate_test_case]
  simp only [Option.getD_some, normList_idem]

/-- C5 (counterexample): a present but wrong-typed `test_id` (the JSON
number `42`) is kept verbatim instead of being replaced by the documented
default `TC-001`. -/
theorem validate_wrong_typed_kept_cex :
    pyGet (validate_test_case [("test_id", JValue.num 42)] 1) "test_id"
        = some (JValue.num 42) ∧
    some (JValue.num 42) ≠ some (JValue.str ("TC-" ++ padNat3 1)) := by
  refine ⟨rfl, ?_⟩
  intro h
  injection h with h1
  exact JValue.noConfusion h1

theorem allObjs_map_obj (recs : List PyDict) :
    allObjs (recs.map JValue.obj) = some recs := by
  induction recs with
  | nil => rfl
  | cons r rest ih => simp [allObjs, asObj, ih]

theorem validateAll_length (l : List PyDict) : ∀ i, (validateAll l i).length = l.length := by
  induction l with
  | nil => intro i; rfl
  | cons tc rest ih => intro i; simp [validateAll, ih]

/-- C5 (amended): the generator validates exactly the first
`requested_count` parsed records, rejecting none; in each output record a
*missing* field is replaced by its documented default (`test_id` ↦
`TC-<1-based index, 3-digit>`, `priority` ↦ `"medium"`, `test_steps` ↦
`["Execute test"]`, the latter also when present but not a list), while
every *present* field other than the two list-checked ones is kept
verbatim regardless of its type. -/
theorem validate_normalization (recs : List PyDict)
    (setOrder : List String → List String) (q c : String) (n : Nat) :
    generate_with_llm (.output (some (.arr (recs.map .obj)))) setOrder q c n
      = validateAll (recs.take n) 1 ∧
    (validateAll (recs.take n) 1).length = min n recs.length ∧
    (∀ tc i, pyGet tc "test_id" = none →
      pyGet (validate_test_case tc i) "test_id"
        = some (.str ("TC-" ++ padNat3 i))) ∧
    (∀ tc i, pyGet tc "priority" = none →
      pyGet (validate_test_case tc i) "priority" = some (.str "medium")) ∧
    (∀ tc i, (∀ xs, pyGet tc "test_steps" ≠ some (.arr xs)) →
      pyGet (validate_test_case tc i) "test_steps"
        = some (.arr [.str "Execute test"])) ∧
    (∀ tc i xs, pyGet tc "test_steps" = some (.arr xs) →
      pyGet (validate_test_case tc i) "test_steps" = some (.arr xs)) ∧
    (∀ tc i k v, k ∈ ["test_id", "feature", "test_scenario", "test_type",
        "preconditions", "expected_result", "priority"] →
      pyGet tc k = some v → pyGet (validate_test_case tc i) k = some v) := by
  refine ⟨?_, ?_, ?_, ?_, ?_, ?_, ?_⟩
  · show (match allObjs ((recs.map JValue.obj).take n) with
      | some r => validateAll r 1
      | none => create_fallback_test_cases setOrder q c n) = _
    rw [← List.map_take, allObjs_map_obj]
  · rw [validateAll_length, List.length_take]
  · intro tc i h
    rw [pyGet_validate_test_id, h]
    rfl
  · intro tc i h
    rw [pyGet_validate_priority, h]
    rfl
  · intro tc i h
    rw [pyGet_validate_test_steps]
    rcases hts : pyGet tc "test_steps" with _ | v
    · rfl
    · cases v <;> first | rfl | exact absurd hts (by intro hc; exact h _ hc)
  · intro tc i xs h
    rw [pyGet_validate_test_steps, h]
    rfl
  · intro tc i k v hk hv
    simp only [List.mem_cons, List.mem_singleton, List.not_mem_nil, or_false] at hk
    rcases hk with rfl | rfl | rfl | rfl | rfl | rfl | rfl <;>
      simp [pyGet_validate_test_id, pyGet_validate_feature,
        pyGet_validate_test_scenario, pyGet_validate_test_type,
        pyGet_validate_preconditions, pyGet_validate_expected_result,
        pyGet_validate_priority, hv]

/-- Witness for C5's amended theorem: a missing `test_id` is defaulted,
and a one-record parsed list is validated without rejection. -/
theorem validate_normalization_witness :
    pyGet (validate_test_case [] 1) "test_id"
      = some (JValue.str ("TC-" ++ padNat3 1)) ∧
    generate_with_llm (.output (some (.arr ([[("a", JValue.null)]].map .obj))))
        (fun l => l) "q" "ctx" 5
      = validateAll ([[("a", JValue.null)]].take 5) 1 :=
  ⟨(validate_normalization [] (fun l => l) "q" "ctx" 5).2.2.1 [] 1 rfl,
   (validate_normalization [[("a", JValue.null)]] (fun l => l) "q" "ctx" 5).1⟩

/-- C10: out-of-enum `test_type` and `priority` strings pass through
validation verbatim; the enums are never checked. -/
theorem enum_fields_unchecked (tc : PyDict) (i : Nat) (s : String) :
    (pyGet tc "test_type" = some (.str s) →
      s ∉ ["positive", "negative", "edge"] →
      pyGet (validate_test_case tc i) "test_type" = some (.str s)) ∧
    (pyGet tc "priority" = some (.str s) →
      s ∉ ["high", "medium", "low"] →
      pyGet (validate_test_case tc i) "priority" = some (.str s)) := by
  constructor
  · intro h _
    rw [pyGet_validate_test_type, h]
    rfl
  · intro h _
    rw [pyGet_validate_priority, h]
    rfl

/-- Witness for C10 at out-of-enum values `"bizarre"` and `"urgent"`. -/
theorem enum_fields_unchecked_witness :
    pyGet (validate_test_case [("test_type", JValue.str "bizarre")] 1) "test_type"
      = some (JValue.str "bizarre") ∧
    pyGet (validate_test_case [("priority", JValue.str "urgent")] 1) "priority"
      = some (JValue.str "urgent") :=
  ⟨(enum_fields_unchecked [("test_type", JValue.str "bizarre")] 1 "bizarre").1 rfl
      (by decide),
   (enum_fields_unchecked [("priority", JValue.str "urgent")] 1 "urgent").2 rfl
      (by decide)⟩

/-! ## Fallback claims -/

/-- The record the fallback loop builds at index `i` (workhorse for the
fallback claims). -/
theorem create_fallback_getD (setOrder : List String → List String)
    (q c : String) (n i : Nat)
    (hi : i < (create_fallback_test_cases setOrder q c n).length) :
    (create_fallback_test_cases setOrder q c n).getD i []
      = [("test_id", .str ("TC-" ++ padNat3 (i + 1))),
         ("feature", .str ((extract_features_from_context setOrder c).getD i
            "General Functionality")),
         ("test_scenario", .str ("Test " ++
            (extract_features_from_context setOrder c).getD i
              "General Functionality" ++ " functionality")),
         ("test_type", .str (if i % 3 ≠ 1 then "positive" else "negative")),
         ("preconditions", .str "Application is loaded"),
         ("test_steps", .arr [.str "Navigate to the feature",
            .str "Perform action", .str "Verify result"]),
         ("expected_result", .str "Feature works as expected"),
         ("grounded_in", .arr [.str "documentation"]),
         ("priority", .str "medium")] := by
  simp only [create_fallback_test_cases, List.length_map, List.length_range] at hi ⊢
  rw [List.getD_eq_getElem?_getD, List.getElem?_map]
  simp only [List.length_eq_zero] at hi
  simp [List.getElem?_range, hi]

/-- C6 (counterexample): with exactly one matched feature and
`requested_count = 5` the fallback produces 1 record, not the
`min(5, max(1, 3)) = 3` records the claim demands (Python's
`len(features) or 3` is not `max(len(features), 3)`). -/
theorem create_fallback_count_cex :
    (create_fallback_test_cases (fun l => l) "q" "button" 5).length = 1 ∧
    min 5 (max (extract_features_from_context (fun l => l) "button").length 3) = 3 ∧
    (1 : Nat) ≠ 3 := by
  refine ⟨rfl, ?_, by decide⟩
  rfl

/-- C6 (amended): for every context and `requested_count ≥ 1` the fallback
produces exactly `min(requested_count, len(features))` records when at
least one feature matched and `min(requested_count, 3)` otherwise, the
`i`-th record using the `i`-th matched feature (`"General Functionality"`
when none matched) and carrying type `"negative"` exactly when
`i % 3 = 1`, `"positive"` otherwise. -/
theorem create_fallback_shape (setOrder : List String → List String)
    (q c : String) (n : Nat) (hn : 1 ≤ n) :
    (create_fallback_test_cases setOrder q c n).length
      = min n (if (extract_features_from_context setOrder c).length = 0 then 3
               else (extract_features_from_context setOrder c).length) ∧
    ∀ i, i < (create_fallback_test_cases setOrder q c n).length →
      pyGet ((create_fallback_test_cases setOrder q c n).getD i []) "test_type"
        = some (.str (if i % 3 ≠ 1 then "positive" else "negative")) ∧
      pyGet ((create_fallback_test_cases setOrder q c n).getD i []) "feature"
        = some (.str ((extract_features_from_context setOrder c).getD i
            "General Functionality")) := by
  refine ⟨by simp [create_fallback_test_cases], ?_⟩
  intro i hi
  rw [create_fallback_getD setOrder q c n i hi]
  exact ⟨rfl, rfl⟩

/-- Witness for C6's amended theorem on a one-feature context with
`requested_count = 5`. -/
theorem create_fallback_shape_witness :
    (create_fallback_test_cases (fun l => l) "q" "button" 5).length
      = min 5 (if (extract_features_from_context (fun l => l) "button").length = 0
               then 3 else (extract_features_from_context (fun l => l) "button").length) ∧
    pyGet ((create_fallback_test_cases (fun l => l) "q" "button" 5).getD 0 []) "test_type"
      = some (JValue.str "positive") :=
  ⟨(create_fallback_shape (fun l => l) "q" "button" 5 (by decide)).1,
   ((create_fallback_shape (fun l => l) "q" "button" 5 (by decide)).2 0 (by decide)).1⟩

/-- C7 (counterexample): the set-iteration order of
`list(set(features))` is hash-seed dependent; two legitimate orders of the
same two matched features (both permutations of the matched set) make two
runs of the fallback on identical `(query, context, requested_count)`
produce different record lists. -/
theorem fallback_set_order_cex :
    extract_features_from_context (fun l => l) "button form"
      = ["Button", "Form"] ∧
    extract_features_from_context (fun l => l.reverse) "button form"
      = ["Form", "Button"] ∧
    List.Perm ["Form", "Button"] ["Button", "Form"] ∧
    create_fallback_test_cases (fun l => l) "q" "button form" 2 ≠
      create_fallback_test_cases (fun l => l.reverse) "q" "button form" 2 := by
  refine ⟨rfl, rfl, List.Perm.swap _ _ _, ?_⟩
  intro h
  have h0 := congrArg (fun r => pyGet (r.getD 0 []) "feature") h
  have h1 : some (JValue.str "Button") = some (JValue.str "Form") := h0
  injection h1 with h2
  injection h2 with h3
  exact absurd h3 (by decide)

/-- C7 (amended): for a fixed set-iteration order (one interpreter
process, hence one hash seed), the fallback is a deterministic function of
the context and requested count alone — in particular it does not even
depend on the query. -/
theorem fallback_deterministic (setOrder : List String → List String)
    (c : String) (n : Nat) (q₁ q₂ : String) :
    create_fallback_test_cases setOrder q₁ c n
      = create_fallback_test_cases setOrder q₂ c n := rfl

/-- The fallback output is non-empty (for `requested_count ≥ 1`), capped
at `requested_count`, and each record populates all nine TestCase fields
with `grounded_in` non-empty. -/
theorem fallback_total (setOrder : List String → List String)
    (q c : String) (n : Nat) (hn : 1 ≤ n) :
    create_fallback_test_cases setOrder q c n ≠ [] ∧
    (create_fallback_test_cases setOrder q c n).length ≤ n ∧
    ∀ rec ∈ create_fallback_test_cases setOrder q c n,
      (∀ k ∈ ["test_id", "feature", "test_scenario", "test_type",
          "preconditions", "test_steps", "expected_result", "grounded_in",
          "priority"], ∃ v, pyGet rec k = some v) ∧
      ∃ xs, xs ≠ [] ∧ pyGet rec "grounded_in" = some (.arr xs) := by
  have hlen : (create_fallback_test_cases setOrder q c n).length
      = min n (if (extract_features_from_context setOrder c).length = 0 then 3
               else (extract_features_from_context setOrder c).length) := by
    simp [create_fallback_test_cases]
  refine ⟨?_, ?_, ?_⟩
  · have hpos : 0 < (create_fallback_test_cases setOrder q c n).length := by
      rw [hlen]
      have h3 : 1 ≤ (if (extract_features_from_context setOrder c).length = 0
          then 3 else (extract_features_from_context setOrder c).length) := by
        split <;> omega
      omega
    exact List.ne_nil_of_length_pos hpos
  · rw [hlen]
    exact Nat.min_le_left _ _
  · intro rec hrec
    rw [create_fallback_test_cases] at hrec
    obtain ⟨i, _, rfl⟩ := List.mem_map.mp hrec
    constructor
    · intro k hk
      simp only [List.mem_cons, List.mem_singleton, List.not_mem_nil,
        or_false] at hk
      rcases hk with rfl | rfl | rfl | rfl | rfl | rfl | rfl | rfl | rfl <;>
        exact ⟨_, rfl⟩
    · exact ⟨[.str "documentation"], by simp, rfl⟩

/-- C1 (counterexample): with `requested_count = 0` a forced transport
failure yields the empty list — the claim's "non-empty for every requested
count" fails at 0. -/
theorem generate_zero_cases_cex :
    generate_test_cases .transportError (fun l => l) [] "checkout discount" 0
      = [] := rfl

/-- C1 (amended): for every query, retrieved context, and
`requested_count ≥ 1`, both generation-failure kinds (transport/timeout
error, unparsable output) are absorbed into the fallback, so
`generate_test_cases` still returns a non-empty list of at most
`requested_count` records, each populating all nine TestCase fields with
`grounded_in` non-empty. -/
theorem generate_test_cases_absorbs_failures (outcome : GenOutcome)
    (h : outcome = .transportError ∨ outcome = .output none)
    (setOrder : List String → List String) (docs : List CtxDoc)
    (q : String) (n : Nat) (hn : 1 ≤ n) :
    generate_test_cases outcome setOrder docs q n ≠ [] ∧
    (generate_test_cases outcome setOrder docs q n).length ≤ n ∧
    ∀ rec ∈ generate_test_cases outcome setOrder docs q n,
      (∀ k ∈ ["test_id", "feature", "test_scenario", "test_type",
          "preconditions", "test_steps", "expected_result", "grounded_in",
          "priority"], ∃ v, pyGet rec k = some v) ∧
      ∃ xs, xs ≠ [] ∧ pyGet rec "grounded_in" = some (.arr xs) := by
  rcases h with rfl | rfl <;>
    exact fallback_total setOrder q (build_context_string docs) n hn

/-- Witness for C1's amended theorem: forced transport failure,
`generate_test_cases("checkout discount", 5)`. -/
theorem generate_test_cases_absorbs_failures_witness :
    generate_test_cases .transportError (fun l => l) [] "checkout discount" 5
      ≠ [] ∧
    (generate_test_cases .transportError (fun l => l) [] "checkout discount" 5).length
      ≤ 5 :=
  ⟨(generate_test_cases_absorbs_failures _ (Or.inl rfl) (fun l => l) []
      "checkout discount" 5 (by decide)).1,
   (generate_test_cases_absorbs_failures _ (Or.inl rfl) (fun l => l) []
      "checkout discount" 5 (by decide)).2.1⟩

/-! ## Selector table claims -/

theorem alistGet_dictSet_overwrite {α : Type} (k : String) (v : α) :
    ∀ d : List (String × α), d.any (fun p => p.1 == k) = true →
      alistGet (d.map fun p => if p.1 == k then (k, v) else p) k = some v := by
  intro d
  induction d with
  | nil => intro h; simp at h
  | cons p rest ih =>
    intro h
    by_cases hp : (p.1 == k) = true
    · simp [alistGet, List.find?, hp]
    · have hrest : rest.any (fun p => p.1 == k) = true := by
        simp only [List.any_cons, hp, Bool.false_or] at h
        exact h
      have := ih hrest
      simpa [alistGet, List.find?, hp] using this

theorem alistGet_dictSet {α : Type} (d : List (String × α)) (k : String) (v : α) :
    alistGet (dictSet d k v) k = some v := by
  unfold dictSet
  by_cases hany : d.any (fun p => p.1 == k) = true
  · rw [if_pos hany]
    exact alistGet_dictSet_overwrite k v d hany
  · rw [if_neg hany]
    have hnone : d.find? (fun p => p.1 == k) = none := by
      rw [List.find?_eq_none]
      intro x hx hcon
      exact hany (List.any_eq_true.mpr ⟨x, hx, hcon⟩)
    simp [alistGet, List.find?_append, hnone, List.find?]

theorem extract_selectors_append (es : List HElem) (e : HElem)
    (htag : e.tag ∈ interactiveTags) :
    extract_selectors (es ++ [e])
      = match keyOf (infoOf e) with
        | some k => dictSet (extract_selectors es) k (infoOf e)
        | none => extract_selectors es := by
  unfold extract_selectors
  rw [List.filter_append]
  have hf : List.filter (fun x => interactiveTags.contains x.tag) [e] = [e] := by
    simp [List.filter_singleton, List.elem_iff.mpr htag, List.contains, htag]
  rw [hf, List.foldl_append]
  rfl

/-- C9: selector keys follow the id → name → visible-text-prefix priority
with last-wins overwriting: appending an interactive element with a truthy
id makes `#<id>` map to its entry; the claim's markup yields the keys
`#email` and `button:contains('Submit')`; and two id-less, name-less
buttons sharing their first 30 text characters collapse to a single key
held by the last occurrence. -/
theorem extract_selectors_claim :
    (∀ (es : List HElem) (e : HElem), e.tag ∈ interactiveTags →
      truthyOpt (infoOf e).idAttr = true →
      alistGet (extract_selectors (es ++ [e]))
          ("#" ++ (infoOf e).idAttr.getD "")
        = some (infoOf e)) ∧
    alistGet (extract_selectors [inputEmail, buttonSubmit]) "#email"
      = some (infoOf inputEmail) ∧
    alistGet (extract_selectors [inputEmail, buttonSubmit])
        ("button:contains(" ++ sq ++ "Submit" ++ sq ++ ")")
      = some (infoOf buttonSubmit) ∧
    infoOf btnDupA ≠ infoOf btnDupB ∧
    extract_selectors [btnDupA, btnDupB]
      = [("button:contains(" ++ sq ++ String.mk (List.replicate 30 'x') ++ sq ++ ")",
          infoOf btnDupB)] := by
  refine ⟨?_, by decide, by decide, by decide, by decide⟩
  intro es e htag hid
  rw [extract_selectors_append es e htag]
  have hk : keyOf (infoOf e) = some ("#" ++ (infoOf e).idAttr.getD "") := by
    unfold keyOf
    rw [if_pos hid]
  rw [hk]
  exact alistGet_dictSet _ _ _

/-- Witness for C9: the general id-priority/last-wins clause applied to
the single `<input id="email">` element. -/
theorem extract_selectors_claim_witness :
    alistGet (extract_selectors ([] ++ [inputEmail]))
        ("#" ++ (infoOf inputEmail).idAttr.getD "")
      = some (infoOf inputEmail) :=
  extract_selectors_claim.1 [] inputEmail (by decide) (by decide)

end QAAgent
